import Mathlib

/-!
Verification of the ADW (autonomous development workflow) orchestrator:
a shallow embedding, in Lean, of the control-flow logic of the pipeline
orchestrator (adws/adw_requirements_pipeline_iso.py), the retry-with-backoff
wrappers (adws/adw_modules/github.py), the three trigger dispatchers
(adws/adw_triggers/), and the test-and-resolve loops (adws/adw_test.py).

External boundaries (child processes, the agent invocation, the issue
tracker, the filesystem, the durable state store) are modelled as oracle
inputs and as events in an output trace; all decision logic is translated
directly from the Python source.
-/

namespace ADW

/-! ## Python string semantics helpers -/

/-- Does the first list start with the second (needle) list? -/
def startsWithL : List Char → List Char → Bool
  | _, [] => true
  | [], _ :: _ => false
  | a :: as, b :: bs => a = b && startsWithL as bs

/-- Substring containment: Python `needle in hay` (empty needle always matches). -/
def containsSubL (needle : List Char) : List Char → Bool
  | [] => startsWithL [] needle
  | c :: rest => startsWithL (c :: rest) needle || containsSubL needle rest

/-- Python `needle in hay` on strings. -/
def pyIn (needle hay : String) : Bool := containsSubL needle.data hay.data

/-- Python `str.lower()` (ASCII; all strings in the modelled call sites are ASCII
or contain characters unaffected by lowering). -/
def pyLower (s : String) : String := ⟨s.data.map Char.toLower⟩

/-- Python regex `\s` character class: space, tab, newline, carriage return,
vertical tab, form feed. -/
def isPySpace (c : Char) : Bool :=
  c = ' ' || c = '\t' || c = '\n' || c = '\r' || c = '\x0b' || c = '\x0c'

/-- Python `str.strip()` on a character list. -/
def pyStripL (cs : List Char) : List Char :=
  ((cs.dropWhile isPySpace).reverse.dropWhile isPySpace).reverse

/-- Python `hay.startswith(pre)`. -/
def pyStartsWith (s pre : String) : Bool := startsWithL s.data pre.data

/-- Python `hay.endswith(suffix)` (also the set of names matched by a glob
pattern `*suffix`). -/
def pyEndsWith (s suffix : String) : Bool :=
  startsWithL s.data.reverse suffix.data.reverse

/-! ## adw_requirements_pipeline_iso.parse_success_path

Embeds the regex search `re.search(rf"SUCCESS:\s*{re.escape(prefix)}\s+at\s+(.+)", output)`
followed by `.group(1).strip()`: scan left to right for the first position where
`SUCCESS:`, then greedy `\s*`, then the literal prefix, then `\s+`, then literal
`at`, then `\s+`, then a greedy nonempty run of non-newline characters (the
captured group) match.  The literal tokens start with non-space characters, so
the greedy whitespace runs never need backtracking against them; the only
backtracking case is `\s+(.+)` when the rest of the input is all whitespace,
where the greedy match captures the last non-newline whitespace character. -/

def matchSuccessAt (pfxChars : List Char) (cs : List Char) : Option (List Char) :=
  if startsWithL cs "SUCCESS:".data then
    let cs1 := (cs.drop 8).dropWhile isPySpace
    if startsWithL cs1 pfxChars then
      let cs2 := cs1.drop pfxChars.length
      if (cs2.takeWhile isPySpace).isEmpty then none
      else
        let cs3 := cs2.dropWhile isPySpace
        if startsWithL cs3 "at".data then
          let cs4 := cs3.drop 2
          let w2 := cs4.takeWhile isPySpace
          if w2.isEmpty then none
          else
            match cs4.dropWhile isPySpace with
            | c :: rest => some ((c :: rest).takeWhile (fun d => d ≠ '\n'))
            | [] =>
              match ((w2.drop 1).filter (fun d => d ≠ '\n')).getLast? with
              | some c => some [c]
              | none => none
        else none
    else none
  else none

/-- `re.search` left-to-right scan for the pattern above. -/
def reSearchSuccess (pfxChars : List Char) : List Char → Option (List Char)
  | [] => none
  | c :: rest =>
    match matchSuccessAt pfxChars (c :: rest) with
    | some g => some g
    | none => reSearchSuccess pfxChars rest

/-- Embeds `parse_success_path(output, prefix)`: the captured path, stripped,
or `none` when no line matches. -/
def parse_success_path (output : String) (pfx : String) : Option String :=
  match reSearchSuccess pfx.data output.data with
  | some g => some ⟨pyStripL g⟩
  | none => none

/-- Python falsiness of the value returned by `parse_success_path`
(`if not prd_path:` treats both `None` and the empty string as failure). -/
def pyFalsy : Option String → Bool
  | none => true
  | some s => s.isEmpty

/-- Embeds `parse_issue_numbers(output)`: `re.findall(r"#(\d+)", output)`,
non-overlapping left-to-right matches of `#` followed by one or more digits. -/
def parse_issue_numbersL : List Char → List (List Char)
  | [] => []
  | c :: rest =>
    if c = '#' then
      let ds := rest.takeWhile Char.isDigit
      if ds.isEmpty then parse_issue_numbersL rest
      else ds :: parse_issue_numbersL (rest.drop ds.length)
    else parse_issue_numbersL rest
termination_by cs => cs.length
decreasing_by
  all_goals simp [List.length_drop]
  all_goals omega

def parse_issue_numbers (output : String) : List String :=
  (parse_issue_numbersL output.data).map (fun ds => ⟨ds⟩)

/-! ## adw_requirements_pipeline_iso.main — the pipeline orchestrator

Each stage is an external child process; its observable interface is its
`(returncode, stdout, stderr)` triple, given as input.  The orchestrator's
behaviour is recorded as an event trace: stage invocations, per-stage log
files written, state saves, the merge attempt, the summary (with its merge
status line) and the process exit code.  The trailing `exit 0` event stands
for normal process termination. -/

structure StageResult where
  returncode : Int
  stdout : String
  stderr : String
deriving Repr, DecidableEq

structure PipelineInput where
  skipIssues : Bool
  stage1 : StageResult
  stage2 : StageResult
  stage3 : StageResult
  mergeSuccess : Bool
  mergeError : String
deriving Repr, DecidableEq

inductive Ev where
  | save
  | invoke (stage : Nat)
  | logFile (name : String)
  | mergeAttempt
  | summary (mergeStatus : String)
  | exit (code : Int)
deriving Repr, DecidableEq

/-- Per-stage log files (literal names as in the source): stdout is always
written; stderr only when nonempty (`if stageN.stderr:`). -/
def stageLogs (stdoutLog stderrLog : String) (r : StageResult) : List Ev :=
  [Ev.logFile stdoutLog] ++ (if r.stderr ≠ "" then [Ev.logFile stderrLog] else [])

/-- The merge-status string printed in the summary (`MERGED` or `FAILED (err)`). -/
def mergeStatusStr (inp : PipelineInput) : String :=
  if inp.mergeSuccess then "MERGED" else "FAILED (" ++ inp.mergeError ++ ")"

/-- Merge-to-main plus summary: a merge failure is reported in the summary and
the process still terminates normally (exit code 0). -/
def pipelineTail (inp : PipelineInput) : List Ev :=
  [Ev.mergeAttempt, Ev.summary (mergeStatusStr inp), Ev.exit 0]

/-- Stage 3 (prompts → issues): run unless `--skip-issues`; a nonzero exit code
saves state and exits 1; on exit code 0 the stdout is scanned for `#NNN` issue
numbers (no success-marker check) and the pipeline proceeds to the merge. -/
def stage3Events (inp : PipelineInput) : List Ev :=
  if inp.skipIssues then pipelineTail inp
  else
    [Ev.invoke 3] ++ stageLogs "stage3_stdout.log" "stage3_stderr.log" inp.stage3 ++
      (if inp.stage3.returncode ≠ 0 then [Ev.save, Ev.exit 1]
       else [Ev.save] ++ pipelineTail inp)

/-- Stage 2 (PRD → prompts): nonzero exit, or a missing/empty
`SUCCESS: Prompts document generated at <path>` marker, saves state and exits 1. -/
def stage2Events (inp : PipelineInput) : List Ev :=
  [Ev.invoke 2] ++ stageLogs "stage2_stdout.log" "stage2_stderr.log" inp.stage2 ++
    (if inp.stage2.returncode ≠ 0 then [Ev.save, Ev.exit 1]
     else if pyFalsy (parse_success_path inp.stage2.stdout "Prompts document generated") then
       [Ev.save, Ev.exit 1]
     else [Ev.save] ++ stage3Events inp)

/-- Stage 1 (transcript → PRD): nonzero exit, or a missing/empty
`SUCCESS: PRD generated at <path>` marker, saves state and exits 1. -/
def stage1Events (inp : PipelineInput) : List Ev :=
  [Ev.invoke 1] ++ stageLogs "stage1_stdout.log" "stage1_stderr.log" inp.stage1 ++
    (if inp.stage1.returncode ≠ 0 then [Ev.save, Ev.exit 1]
     else if pyFalsy (parse_success_path inp.stage1.stdout "PRD generated") then
       [Ev.save, Ev.exit 1]
     else [Ev.save] ++ stage2Events inp)

/-- Embeds `main()` of adw_requirements_pipeline_iso.py from the point where
arguments and the transcript file have been validated: initial state save,
then the three stages, then merge and summary. -/
def runPipeline (inp : PipelineInput) : List Ev :=
  [Ev.save] ++ stage1Events inp

/-- The orchestrator's failure condition for stage 1, exactly as coded. -/
def stage1Fails (inp : PipelineInput) : Prop :=
  inp.stage1.returncode ≠ 0 ∨
    pyFalsy (parse_success_path inp.stage1.stdout "PRD generated") = true

/-- The orchestrator's failure condition for stage 2, exactly as coded. -/
def stage2Fails (inp : PipelineInput) : Prop :=
  inp.stage2.returncode ≠ 0 ∨
    pyFalsy (parse_success_path inp.stage2.stdout "Prompts document generated") = true

instance (inp : PipelineInput) : Decidable (stage1Fails inp) := by
  unfold stage1Fails; infer_instance

instance (inp : PipelineInput) : Decidable (stage2Fails inp) := by
  unfold stage2Fails; infer_instance

/-! ## github.py — retry-with-backoff wrappers

A single external call attempt by `gh` can end five ways, matching the
branches of `fetch_issue`: a zero exit whose JSON parses (the function
returns), a nonzero exit with some stderr text, a `subprocess.TimeoutExpired`,
a `FileNotFoundError` (gh not installed), or any other exception (for example
a JSON parse or model-validation error), whose handler is the generic
`except Exception`. -/

inductive FetchAttempt where
  | ok
  | exitErr (rc : Int) (stderr : String)
  | timedOut
  | cliMissing
  | exc (msg : String)
deriving Repr, DecidableEq

/-- `make_issue_comment` has no `FileNotFoundError` handler, so that error
would land in its generic `except Exception` branch; its attempt outcomes. -/
inductive CommentAttempt where
  | ok
  | exitErr (stderr : String)
  | timedOut
  | exc (msg : String)
deriving Repr, DecidableEq

/-- `any(kw in last_error.lower() for kw in ["timeout", "i/o", "dial tcp"])` —
identical in both wrappers. -/
def isNetworkError (s : String) : Bool :=
  pyIn "timeout" (pyLower s) || pyIn "i/o" (pyLower s) || pyIn "dial tcp" (pyLower s)

inductive FetchOutcome where
  | returned
  | exited (code : Int)
deriving Repr, DecidableEq

inductive CommentOutcome where
  | returned
  | raised (msg : String)
deriving Repr, DecidableEq

/-- Observable trace of one wrapper call: the sleeps performed (in seconds,
in order), how many attempts ran, and the outcome. -/
structure RetryTrace (O : Type) where
  sleeps : List Nat
  attemptsMade : Nat
  outcome : O
deriving Repr, DecidableEq

/-- Embeds the `for attempt in range(1, max_retries + 1)` loop of
`fetch_issue`; `fuel` is the number of loop iterations left
(`max_retries - attempt + 1`), and falling off the loop exits the process
with code 1 (`sys.exit(1)` after the exhaustion message). -/
def fetchGo (attempts : Nat → FetchAttempt) (maxRetries : Nat) :
    Nat → Nat → RetryTrace FetchOutcome
  | 0, _ => ⟨[], 0, FetchOutcome.exited 1⟩
  | fuel + 1, attempt =>
    match attempts attempt with
    | FetchAttempt.ok => ⟨[], 1, FetchOutcome.returned⟩
    | FetchAttempt.exitErr rc stderr =>
      if isNetworkError stderr then
        if attempt < maxRetries then
          let r := fetchGo attempts maxRetries fuel (attempt + 1)
          ⟨2 ^ attempt :: r.sleeps, r.attemptsMade + 1, r.outcome⟩
        else ⟨[], 1, FetchOutcome.exited rc⟩
      else ⟨[], 1, FetchOutcome.exited rc⟩
    | FetchAttempt.timedOut =>
      if attempt < maxRetries then
        let r := fetchGo attempts maxRetries fuel (attempt + 1)
        ⟨2 ^ attempt :: r.sleeps, r.attemptsMade + 1, r.outcome⟩
      else ⟨[], 1, FetchOutcome.exited 1⟩
    | FetchAttempt.cliMissing => ⟨[], 1, FetchOutcome.exited 1⟩
    | FetchAttempt.exc _ =>
      if attempt < maxRetries then
        let r := fetchGo attempts maxRetries fuel (attempt + 1)
        ⟨2 ^ attempt :: r.sleeps, r.attemptsMade + 1, r.outcome⟩
      else ⟨[], 1, FetchOutcome.exited 1⟩

/-- Embeds `fetch_issue(issue_number, repo_path, max_retries)` as a function of
the per-attempt outcomes of the `gh issue view` child process. -/
def fetch_issue_run (attempts : Nat → FetchAttempt) (maxRetries : Nat) :
    RetryTrace FetchOutcome :=
  fetchGo attempts maxRetries maxRetries 1

/-- Embeds the retry loop of `make_issue_comment`, threading `last_error`;
falling off the loop raises
`RuntimeError(f"Failed to post comment after {max_retries} retries: {last_error}")`. -/
def commentGo (attempts : Nat → CommentAttempt) (maxRetries : Nat) :
    Nat → Nat → String → RetryTrace CommentOutcome
  | 0, _, le =>
    ⟨[], 0, CommentOutcome.raised
      ("Failed to post comment after " ++ toString maxRetries ++ " retries: " ++ le)⟩
  | fuel + 1, attempt, _ =>
    match attempts attempt with
    | CommentAttempt.ok => ⟨[], 1, CommentOutcome.returned⟩
    | CommentAttempt.exitErr stderr =>
      if isNetworkError stderr then
        if attempt < maxRetries then
          let r := commentGo attempts maxRetries fuel (attempt + 1) stderr
          ⟨2 ^ attempt :: r.sleeps, r.attemptsMade + 1, r.outcome⟩
        else ⟨[], 1, CommentOutcome.raised ("Failed to post comment: " ++ stderr)⟩
      else ⟨[], 1, CommentOutcome.raised ("Failed to post comment: " ++ stderr)⟩
    | CommentAttempt.timedOut =>
      if attempt < maxRetries then
        let r := commentGo attempts maxRetries fuel (attempt + 1) "subprocess timed out after 30s"
        ⟨2 ^ attempt :: r.sleeps, r.attemptsMade + 1, r.outcome⟩
      else ⟨[], 1, CommentOutcome.raised
        ("Failed to post comment after " ++ toString maxRetries ++
          " retries: subprocess timed out after 30s")⟩
    | CommentAttempt.exc msg =>
      if attempt < maxRetries then
        let r := commentGo attempts maxRetries fuel (attempt + 1) msg
        ⟨2 ^ attempt :: r.sleeps, r.attemptsMade + 1, r.outcome⟩
      else ⟨[], 1, CommentOutcome.raised
        ("Failed to post comment after " ++ toString maxRetries ++ " retries: " ++ msg)⟩

/-- Embeds `make_issue_comment(issue_id, comment, max_retries)` as a function
of the per-attempt outcomes of the `gh issue comment` child process
(`last_error` starts as Python `None`, modelled `""`; it is unread unless
`max_retries = 0`). -/
def make_issue_comment_run (attempts : Nat → CommentAttempt) (maxRetries : Nat) :
    RetryTrace CommentOutcome :=
  commentGo attempts maxRetries maxRetries 1 ""

/-- The spec's retryable set for the wrappers: the failure message matches one
of the network-indicative substrings, or the call raised a process-timeout.
(Stated from the spec's words, for comparison with the code's behaviour.) -/
def specRetryableFetch : FetchAttempt → Bool
  | FetchAttempt.timedOut => true
  | FetchAttempt.exitErr _ s => isNetworkError s
  | _ => false

/-- The spec's retryable set, for `make_issue_comment` attempts. -/
def specRetryableComment : CommentAttempt → Bool
  | CommentAttempt.timedOut => true
  | CommentAttempt.exitErr s => isNetworkError s
  | _ => false

/-- The code's actual retryable set in `fetch_issue`: network-matching stderr,
process timeout, or any unexpected exception; a nonzero exit without the
substrings and a missing CLI abort immediately. -/
def codeRetryableFetch : FetchAttempt → Bool
  | FetchAttempt.ok => false
  | FetchAttempt.exitErr _ s => isNetworkError s
  | FetchAttempt.timedOut => true
  | FetchAttempt.cliMissing => false
  | FetchAttempt.exc _ => true

/-- The code's actual retryable set in `make_issue_comment`. -/
def codeRetryableComment : CommentAttempt → Bool
  | CommentAttempt.ok => false
  | CommentAttempt.exitErr s => isNetworkError s
  | CommentAttempt.timedOut => true
  | CommentAttempt.exc _ => true

/-! ## github.py — upload_file_as_comment truncation -/

def GITHUB_COMMENT_MAX_SIZE : Nat := 65000

def truncationNote : String :=
  "\n\n---\n⚠️ *Content truncated due to GitHub comment size limit. See full file in repository.*"

/-- The truncation step of `upload_file_as_comment`: content longer than the
limit is cut to its first `GITHUB_COMMENT_MAX_SIZE` characters (`content[:N]`). -/
def truncateContent (content : String) : String × Bool :=
  if content.length > GITHUB_COMMENT_MAX_SIZE then
    (⟨content.data.take GITHUB_COMMENT_MAX_SIZE⟩, true)
  else (content, false)

/-- Emoji and title chosen from the file type. -/
def uploadEmojiTitle (fileType : String) : String × String :=
  if fileType = "plan" then ("📋", "Implementation Plan")
  else if fileType = "documentation" then ("📚", "Generated Documentation")
  else ("📄", "File: " ++ fileType)

/-- The comment body assembled by `upload_file_as_comment` (file reading and
the posting call are I/O boundaries; `fileName` is `os.path.basename(file_path)`). -/
def build_upload_comment (adwId fileType fileName content : String) : String :=
  let et := uploadEmojiTitle fileType
  let tc := truncateContent content
  let note := if tc.2 then truncationNote else ""
  adwId ++ "_ops: " ++ et.1 ++ " **" ++ et.2 ++ "**\n\n" ++
    "<details>\n" ++
    "<summary>Click to expand " ++ fileType ++ " content (" ++ fileName ++ ")</summary>\n\n" ++
    "```markdown\n" ++ tc.1 ++ "\n```" ++ note ++ "\n" ++
    "</details>"

/-! ## trigger_cron_zte.py — sequential ZTE queue processor -/

def ADW_BOT_IDENTIFIER : String := "[ADW-AGENTS]"

/-- One open issue as seen by the dispatchers: its number (Python-falsy `0`
is skipped), its body, and its comment bodies in creation order. -/
structure IssueItem where
  number : Nat
  body : String
  comments : List String
deriving Repr, DecidableEq

/-- Embeds `has_adw_run(issue_number, issue_body)`: the keyword in the body, or
in any comment that does not carry the bot marker. -/
def has_adw_run (body : String) (comments : List String) : Bool :=
  let bl := pyLower body
  if pyIn "adw_run" bl || pyIn "adw run" bl then true
  else comments.any (fun cb =>
    !pyIn ADW_BOT_IDENTIFIER cb &&
      (pyIn "adw_run" (pyLower cb) || pyIn "adw run" (pyLower cb)))

/-- Embeds `find_qualifying_issues()`: filter open issues (truthy number, not
already completed, keyword found) and sort the numbers ascending
(`qualifying.sort()` — a stable ascending sort). -/
def find_qualifying_issues (issues : List IssueItem) (completed : List Nat) : List Nat :=
  let qualifying := (issues.filter (fun i =>
    i.number ≠ 0 && !completed.contains i.number && has_adw_run i.body i.comments)).map
      (fun i => i.number)
  qualifying.insertionSort (· ≤ ·)

structure QueueResult where
  completedCount : Nat
  failed : Option Nat
  attempted : List Nat
deriving Repr, DecidableEq

/-- Embeds `process_queue(queue)` (with no shutdown request): run each issue's
ZTE workflow blocking, in order; `w n` is whether issue `n`'s workflow exits 0;
halt and return on the first failure. -/
def process_queue (w : Nat → Bool) : List Nat → QueueResult
  | [] => ⟨0, none, []⟩
  | n :: rest =>
    if w n then
      let r := process_queue w rest
      ⟨r.completedCount + 1, r.failed, n :: r.attempted⟩
    else ⟨0, some n, [n]⟩

/-- One scan pass of `main()`: `some 1` when the pass calls `sys.exit(1)`
(a queue item failed), `none` when the pass completes and the loop continues. -/
def zteScanPassExit (w : Nat → Bool) (issues : List IssueItem) (completed : List Nat) :
    Option Int :=
  let q := find_qualifying_issues issues completed
  if q.isEmpty then none
  else if (process_queue w q).failed ≠ none then some 1 else none

/-! ## trigger_cron.py — concurrent dispatcher qualification -/

/-- A tracker comment as consumed by `should_process_issue`: its id and body. -/
structure CommentRec where
  id : Int
  body : String
deriving Repr, DecidableEq

/-- Embeds `should_process_issue(issue_number, issue_body)` of trigger_cron.py:
returns the workflow to dispatch, or `none`.  The body check consults the
in-process `processed_issues` set; the comment check looks only at the latest
comment, dedups on its id via `issue_last_comment`, and — unlike the ZTE
variant — applies no bot-marker filter. -/
def should_process_issue (issueNumber : Nat) (issueBody : String)
    (processedIssues : List Nat) (comments : List CommentRec)
    (issueLastComment : Nat → Option Int) : Option String :=
  let bodyLower : String := ⟨pyStripL (pyLower issueBody).data⟩
  if pyIn "adw_run" bodyLower || pyIn "adw run" bodyLower then
    if processedIssues.contains issueNumber then none else some "adw_sdlc_iso"
  else
    match comments.getLast? with
    | none => none
    | some latest =>
      if issueLastComment issueNumber = some latest.id then none
      else
        let commentLower : String := ⟨pyStripL (pyLower latest.body).data⟩
        if pyIn "adw_run" commentLower || pyIn "adw run" commentLower then
          some "adw_sdlc_iso"
        else none

/-! ## trigger_transcript_watch.py — filesystem watcher dedup -/

/-- A file in the watched folder: its log key (the portable relative path,
produced by `_relative_key`) and its modification time as the ISO string
stored in the log. -/
structure WatchFile where
  name : String
  mtime : String
deriving Repr, DecidableEq

/-- Lookup in the persisted `processed_files` map (modelled as an association
list keyed by path). -/
def lookupLog (log : List (String × String)) (k : String) : Option String :=
  (log.find? (fun e => e.1 = k)).map (fun e => e.2)

/-- Embeds `is_processed(filepath)`: `True` iff the file is in the log and its
stored `file_mtime` equals the file's current modification time. -/
def is_processed (log : List (String × String)) (f : WatchFile) : Bool :=
  match lookupLog log f.name with
  | none => false
  | some m => m = f.mtime

/-- Dict upsert for `data["processed_files"][key] = {...}`. -/
def upsertLog : List (String × String) → String → String → List (String × String)
  | [], k, v => [(k, v)]
  | (k', v') :: rest, k, v =>
    if k' = k then (k, v) :: rest else (k', v') :: upsertLog rest k v

/-- Embeds `mark_processed(filepath)` restricted to the mtime field the dedup
check reads. -/
def mark_processed (log : List (String × String)) (f : WatchFile) :
    List (String × String) :=
  upsertLog log f.name f.mtime

/-- The glob-loop filter of `check_transcript_folder` for one extension:
name matches `*ext`, is not a dotfile, is not README.md, and is not already
processed unchanged. -/
def newFilesForExt (log : List (String × String)) (files : List WatchFile)
    (ext : String) : List WatchFile :=
  files.filter (fun f =>
    pyEndsWith f.name ext && !pyStartsWith f.name "." && f.name ≠ "README.md" &&
      !is_processed log f)

/-- Embeds the scan of `check_transcript_folder()` (with no shutdown request):
the list of files dispatched in this pass, one `trigger_pipeline` call each,
iterating the watched extensions. -/
def check_transcript_folder (log : List (String × String)) (files : List WatchFile) :
    List WatchFile :=
  newFilesForExt log files ".md" ++ newFilesForExt log files ".pdf"

/-! ## adw_test.py — layered test-and-resolve loops

The agent invocation (`execute_template`) and the JSON parsing of its payload
are external boundaries; a layer execution is modelled by its parsed outcome.
`TestR` is the structured test result — modelled from the spec: the
`TestResult` data type (adw_modules/data_types.py is not in the sources)
is `{name, passed, command, purpose, error}`; only `test_name` and `passed`
drive the loops. -/

structure TestR where
  test_name : String
  passed : Bool
deriving Repr, DecidableEq

/-- One unit-test layer execution as seen by the loop: either
`test_response.success == False` (a high-level error) or the parsed result
list (a parse failure yields the empty list — `parse_test_results` returns
`[], 0, 0`). -/
inductive RunOut where
  | err
  | ok (tests : List TestR)
deriving Repr, DecidableEq

def countFailed (ts : List TestR) : Nat := (ts.filter (fun t => !t.passed)).length

def countPassed (ts : List TestR) : Nat := (ts.filter (fun t => t.passed)).length

/-- Embeds `resolve_failed_tests`: one resolver action per failing case;
`resolver iteration name` is whether that resolver run reports success.
Returns `(resolved_count, unresolved_count)`. -/
def resolve_failed_tests (resolver : Nat → String → Bool) (iteration : Nat)
    (failedTests : List TestR) : Nat × Nat :=
  ((failedTests.filter (fun t => resolver iteration t.test_name)).length,
   (failedTests.filter (fun t => !resolver iteration t.test_name)).length)

def MAX_TEST_RETRY_ATTEMPTS : Nat := 4

def MAX_E2E_TEST_RETRY_ATTEMPTS : Nat := 2

def MAX_API_TEST_RETRY_ATTEMPTS : Nat := 2

/-- Loop state of `run_tests_with_resolution`: number of layer executions so
far and the latest parsed results with their counts. -/
structure TestLoopState where
  executions : Nat
  results : List TestR
  passedCount : Nat
  failedCount : Nat
deriving Repr, DecidableEq

/-- Embeds the `while attempt < max_attempts` loop of
`run_tests_with_resolution`; `fuel = maxAttempts - attempt` iterations remain.
`runs i` is the outcome of the i-th layer execution. -/
def run_tests_loop (runs : Nat → RunOut) (resolver : Nat → String → Bool)
    (maxAttempts : Nat) : Nat → Nat → TestLoopState → TestLoopState
  | 0, _, st => st
  | fuel + 1, attempt, st =>
    let attempt' := attempt + 1
    match runs attempt' with
    | RunOut.err => { st with executions := st.executions + 1 }
    | RunOut.ok ts =>
      let st' : TestLoopState := ⟨st.executions + 1, ts, countPassed ts, countFailed ts⟩
      if countFailed ts = 0 then st'
      else if attempt' = maxAttempts then st'
      else
        let failedTests := ts.filter (fun t => !t.passed)
        if (resolve_failed_tests resolver attempt' failedTests).1 > 0 then
          run_tests_loop runs resolver maxAttempts fuel attempt' st'
        else st'

/-- Embeds `run_tests_with_resolution(adw_id, issue_number, logger, max_attempts)`. -/
def run_tests_with_resolution (runs : Nat → RunOut) (resolver : Nat → String → Bool)
    (maxAttempts : Nat) : TestLoopState :=
  run_tests_loop runs resolver maxAttempts maxAttempts 0 ⟨0, [], 0, 0⟩

/-- Embeds `run_e2e_tests`: run the test files sequentially, stopping at the
first failing case; `outcome attempt f` is whether file `f`'s E2E result is
passed on that attempt (an execution or parse error yields a failed result —
modelled from the spec's E2E result `{name, passed, ...}`). -/
def run_e2e_tests (outcome : Nat → String → Bool) (attempt : Nat) :
    List String → List (String × Bool)
  | [] => []
  | f :: rest =>
    if outcome attempt f then (f, true) :: run_e2e_tests outcome attempt rest
    else [(f, false)]

def countE2eFailed (rs : List (String × Bool)) : Nat :=
  (rs.filter (fun r => !r.2)).length

def countE2ePassed (rs : List (String × Bool)) : Nat :=
  (rs.filter (fun r => r.2)).length

structure E2ELoopState where
  executions : Nat
  results : List (String × Bool)
  passedCount : Nat
  failedCount : Nat
deriving Repr, DecidableEq

/-- Embeds the `while attempt < max_attempts` loop of
`run_e2e_tests_with_resolution`. -/
def run_e2e_loop (files : List String) (outcome : Nat → String → Bool)
    (resolver : Nat → String → Bool) (maxAttempts : Nat) :
    Nat → Nat → E2ELoopState → E2ELoopState
  | 0, _, st => st
  | fuel + 1, attempt, st =>
    let attempt' := attempt + 1
    let rs := run_e2e_tests outcome attempt' files
    if rs.isEmpty then { st with executions := st.executions + 1 }
    else
      let st' : E2ELoopState := ⟨st.executions + 1, rs, countE2ePassed rs, countE2eFailed rs⟩
      if countE2eFailed rs = 0 then st'
      else if attempt' = maxAttempts then st'
      else
        let failedTests := rs.filter (fun r => !r.2)
        if (failedTests.filter (fun r => resolver attempt' r.1)).length > 0 then
          run_e2e_loop files outcome resolver maxAttempts fuel attempt' st'
        else st'

/-- Embeds `run_e2e_tests_with_resolution`. -/
def run_e2e_tests_with_resolution (files : List String) (outcome : Nat → String → Bool)
    (resolver : Nat → String → Bool) (maxAttempts : Nat) : E2ELoopState :=
  run_e2e_loop files outcome resolver maxAttempts maxAttempts 0 ⟨0, [], 0, 0⟩

/-- Input of one `run_api_integration_tests` call: the changed route files,
whether the test server starts and becomes healthy, and the outcome of the
single `/test_api` agent execution. -/
structure ApiInput where
  changedRoutes : List String
  serverStarts : Bool
  serverReady : Bool
  execOk : Bool
  execTests : List TestR
deriving Repr, DecidableEq

/-- Observable outcome of `run_api_integration_tests`, instrumented with the
number of `/test_api` suite executions and of resolver invocations performed. -/
structure ApiOutcome where
  results : List TestR
  passedCount : Nat
  failedCount : Nat
  suiteExecutions : Nat
  resolverInvocations : Nat
deriving Repr, DecidableEq

/-- Embeds `run_api_integration_tests(adw_id, issue_number, logger)`: skip when
no route files changed; synthetic failures for server startup/health problems;
otherwise execute the `/test_api` suite once and parse its results.  The
function contains no resolution sub-loop and never invokes a resolver. -/
def run_api_integration_tests (inp : ApiInput) : ApiOutcome :=
  if inp.changedRoutes.isEmpty then ⟨[], 0, 0, 0, 0⟩
  else if !inp.serverStarts then ⟨[⟨"server_startup", false⟩], 0, 1, 0, 0⟩
  else if !inp.serverReady then ⟨[⟨"server_health_check", false⟩], 0, 1, 0, 0⟩
  else if !inp.execOk then ⟨[⟨"api_test_execution", false⟩], 0, 1, 1, 0⟩
  else ⟨inp.execTests, countPassed inp.execTests, countFailed inp.execTests, 1, 0⟩

/-! ## Concrete scenarios used by counterexamples and witnesses -/

/-- A generic failure whose message matches none of the network substrings. -/
def fetchBoom : Nat → FetchAttempt :=
  fun i => if i = 1 then FetchAttempt.exc "boom" else FetchAttempt.ok

def fetchRetrySchedule : Nat → FetchAttempt :=
  fun i => if i = 3 then FetchAttempt.ok else FetchAttempt.exitErr 1 "dial tcp: i/o timeout"

def commentRetrySchedule : Nat → CommentAttempt :=
  fun i => if i = 3 then CommentAttempt.ok else CommentAttempt.timedOut

/-- A bot-authored comment that also contains the trigger keyword. -/
def botTriggerComment : CommentRec :=
  ⟨101, "[ADW-AGENTS] test_runner: re-running adw_run workflow"⟩

def zteIssuesW : List IssueItem :=
  [⟨42, "adw_run", []⟩, ⟨7, "please ADW run", []⟩, ⟨100, "", ["do adw_run now"]⟩]

def zteWorkflowW : Nat → Bool := fun n => decide (n ≠ 7)

/-- All stages exit zero; stages 1 and 2 emit their markers; stage 3 emits no
success marker at all. -/
def pipeNoMarker3 : PipelineInput :=
  ⟨false, ⟨0, "SUCCESS: PRD generated at docs/prd.md\n", ""⟩,
    ⟨0, "SUCCESS: Prompts document generated at docs/prompts.md\n", ""⟩,
    ⟨0, "created issues: none\n", ""⟩, true, ""⟩

/-- Stage 1 succeeds, stage 2 exits nonzero, merge would succeed. -/
def pipeStage2Fail : PipelineInput :=
  ⟨false, ⟨0, "SUCCESS: PRD generated at docs/prd.md\n", ""⟩,
    ⟨2, "boom", "trace"⟩, ⟨0, "", ""⟩, true, ""⟩

/-- All required stages succeed (issues skipped) and the merge fails. -/
def pipeMergeFail : PipelineInput :=
  ⟨true, ⟨0, "SUCCESS: PRD generated at docs/prd.md\n", ""⟩,
    ⟨0, "SUCCESS: Prompts document generated at docs/prompts.md\n", ""⟩,
    ⟨0, "", ""⟩, false, "merge conflict"⟩

def runsC6 : Nat → RunOut := fun _ => RunOut.ok [⟨"test_api_totals", false⟩]

def resolverAlwaysTrue : Nat → String → Bool := fun _ _ => true

def resolverAlwaysFalse : Nat → String → Bool := fun _ _ => false

def apiCexInput : ApiInput :=
  ⟨["apps/Server/src/adapter/rest/budget_routes.py"], true, true, true,
    [⟨"budget_list_endpoint", false⟩]⟩

def watchLogW : List (String × String) := [("transcripts/a.md", "2026-01-01T00:00:00+00:00")]

def watchFilesW : List WatchFile :=
  [⟨"transcripts/a.md", "2026-01-01T00:00:00+00:00"⟩,
   ⟨"transcripts/b.md", "2026-02-02T00:00:00+00:00"⟩]

/-- Content one character over the GitHub comment size limit. -/
def bigContent : String := ⟨List.replicate 65001 'a'⟩

/-! ## Theorems -/

/-- Helper: a spec-retryable attempt below the retry cap makes `fetchGo` sleep
`2^attempt` seconds and move to the next attempt. -/
theorem fetchGo_retry_step (f : Nat → FetchAttempt) (maxR fuel attempt : Nat)
    (h : specRetryableFetch (f attempt) = true) (hlt : attempt < maxR) :
    fetchGo f maxR (fuel + 1) attempt =
      ⟨2 ^ attempt :: (fetchGo f maxR fuel (attempt + 1)).sleeps,
        (fetchGo f maxR fuel (attempt + 1)).attemptsMade + 1,
        (fetchGo f maxR fuel (attempt + 1)).outcome⟩ := by
  cases hf : f attempt with
  | ok => simp [specRetryableFetch, hf] at h
  | exitErr rc s =>
    have hn : isNetworkError s = true := by simpa [specRetryableFetch, hf] using h
    simp [fetchGo, hf, hn, hlt]
  | timedOut => simp [fetchGo, hf, hlt]
  | cliMissing => simp [specRetryableFetch, hf] at h
  | exc m => simp [specRetryableFetch, hf] at h

/-- Helper: a spec-retryable attempt at the retry cap neither sleeps nor retries. -/
theorem fetchGo_last_attempt (f : Nat → FetchAttempt) (fuel maxR : Nat)
    (_h : specRetryableFetch (f maxR) = true) :
    (fetchGo f maxR (fuel + 1) maxR).sleeps = [] := by
  cases hf : f maxR with
  | ok => simp [fetchGo, hf]
  | exitErr rc s => simp [fetchGo, hf]
  | timedOut => simp [fetchGo, hf]
  | cliMissing => simp [fetchGo, hf]
  | exc m => simp [fetchGo, hf]

/-- Helper: same as `fetchGo_retry_step` for `make_issue_comment`. -/
theorem commentGo_retry_step (g : Nat → CommentAttempt) (maxR fuel attempt : Nat)
    (le : String) (h : specRetryableComment (g attempt) = true) (hlt : attempt < maxR) :
    ∃ le2, commentGo g maxR (fuel + 1) attempt le =
      ⟨2 ^ attempt :: (commentGo g maxR fuel (attempt + 1) le2).sleeps,
        (commentGo g maxR fuel (attempt + 1) le2).attemptsMade + 1,
        (commentGo g maxR fuel (attempt + 1) le2).outcome⟩ := by
  cases hg : g attempt with
  | ok => simp [specRetryableComment, hg] at h
  | exitErr s =>
    have hn : isNetworkError s = true := by simpa [specRetryableComment, hg] using h
    exact ⟨s, by simp [commentGo, hg, hn, hlt]⟩
  | timedOut => exact ⟨"subprocess timed out after 30s", by simp [commentGo, hg, hlt]⟩
  | exc m => simp [specRetryableComment, hg] at h

/-- Helper: a spec-retryable attempt at the retry cap neither sleeps nor retries. -/
theorem commentGo_last_attempt (g : Nat → CommentAttempt) (fuel maxR : Nat) (le : String)
    (_h : specRetryableComment (g maxR) = true) :
    (commentGo g maxR (fuel + 1) maxR le).sleeps = [] := by
  cases hg : g maxR with
  | ok => simp [commentGo, hg]
  | exitErr s => simp [commentGo, hg]
  | timedOut => simp [commentGo, hg]
  | exc m => simp [commentGo, hg]

/-- C2: with `max_retries = 3`, a retry-wrapped tracker call (`fetch_issue`,
`make_issue_comment`) whose attempts 1 and 2 fail retryably and whose attempt 3
succeeds sleeps exactly 2 seconds then 4 seconds, in that order, and returns
the attempt-3 result; and when all three attempts fail retryably the sleep
list is still exactly `[2, 4]` — no sleep follows the final failed attempt. -/
theorem C2_backoff_schedule :
    (∀ f : Nat → FetchAttempt, specRetryableFetch (f 1) = true →
      specRetryableFetch (f 2) = true → f 3 = FetchAttempt.ok →
      fetch_issue_run f 3 = ⟨[2, 4], 3, FetchOutcome.returned⟩) ∧
    (∀ g : Nat → CommentAttempt, specRetryableComment (g 1) = true →
      specRetryableComment (g 2) = true → g 3 = CommentAttempt.ok →
      make_issue_comment_run g 3 = ⟨[2, 4], 3, CommentOutcome.returned⟩) ∧
    (∀ f : Nat → FetchAttempt, specRetryableFetch (f 1) = true →
      specRetryableFetch (f 2) = true → specRetryableFetch (f 3) = true →
      (fetch_issue_run f 3).sleeps = [2, 4]) ∧
    (∀ g : Nat → CommentAttempt, specRetryableComment (g 1) = true →
      specRetryableComment (g 2) = true → specRetryableComment (g 3) = true →
      (make_issue_comment_run g 3).sleeps = [2, 4]) := by
  refine ⟨?_, ?_, ?_, ?_⟩
  · intro f h1 h2 h3
    unfold fetch_issue_run
    rw [show (3 : Nat) = 2 + 1 from rfl, fetchGo_retry_step f 3 2 1 h1 (by omega),
      fetchGo_retry_step f 3 1 2 h2 (by omega)]
    simp [fetchGo, h3]
  · intro g h1 h2 h3
    unfold make_issue_comment_run
    obtain ⟨le2, hstep1⟩ := commentGo_retry_step g 3 2 1 "" h1 (by omega)
    rw [show (3 : Nat) = 2 + 1 from rfl, hstep1]
    obtain ⟨le3, hstep2⟩ := commentGo_retry_step g 3 1 2 le2 h2 (by omega)
    rw [hstep2]
    simp [commentGo, h3]
  · intro f h1 h2 h3
    unfold fetch_issue_run
    rw [show (3 : Nat) = 2 + 1 from rfl, fetchGo_retry_step f 3 2 1 h1 (by omega),
      fetchGo_retry_step f 3 1 2 h2 (by omega)]
    simp [fetchGo_last_attempt f 0 3 h3]
  · intro g h1 h2 h3
    unfold make_issue_comment_run
    obtain ⟨le2, hstep1⟩ := commentGo_retry_step g 3 2 1 "" h1 (by omega)
    rw [show (3 : Nat) = 2 + 1 from rfl, hstep1]
    obtain ⟨le3, hstep2⟩ := commentGo_retry_step g 3 1 2 le2 h2 (by omega)
    rw [hstep2]
    simp [commentGo_last_attempt g 0 3 le3 h3]

/-- C2 witness: the backoff schedule at concrete attempt outcomes. -/
theorem C2_backoff_schedule_witness :
    fetch_issue_run fetchRetrySchedule 3 = ⟨[2, 4], 3, FetchOutcome.returned⟩ ∧
    make_issue_comment_run commentRetrySchedule 3 = ⟨[2, 4], 3, CommentOutcome.returned⟩ :=
  ⟨C2_backoff_schedule.1 fetchRetrySchedule (by decide) (by decide) (by decide),
   C2_backoff_schedule.2.1 commentRetrySchedule (by decide) (by decide) (by decide)⟩

/-- C3 counterexample: a `fetch_issue` attempt failing with a generic exception
whose message `"boom"` matches none of the network substrings and is not a
process-timeout is nonetheless retried — the call sleeps 2 seconds, makes a
second attempt, and returns, instead of aborting immediately as claimed. -/
theorem C3_counterexample :
    specRetryableFetch (FetchAttempt.exc "boom") = false ∧
    fetch_issue_run fetchBoom 3 = ⟨[2], 2, FetchOutcome.returned⟩ := by
  constructor
  · decide
  · decide

/-- Helper: with at least one loop iteration left, `fetchGo` makes at least
one attempt. -/
theorem fetchGo_attempts_pos (f : Nat → FetchAttempt) (maxR fuel attempt : Nat)
    (hfuel : ∃ k, fuel = k + 1) : 1 ≤ (fetchGo f maxR fuel attempt).attemptsMade := by
  obtain ⟨k, rfl⟩ := hfuel
  cases hf : f attempt with
  | ok => simp [fetchGo, hf]
  | exitErr rc s =>
    by_cases hn : isNetworkError s <;> by_cases hlt : attempt < maxR <;>
      simp [fetchGo, hf, hn, hlt]
  | timedOut => by_cases hlt : attempt < maxR <;> simp [fetchGo, hf, hlt]
  | cliMissing => simp [fetchGo, hf]
  | exc m => by_cases hlt : attempt < maxR <;> simp [fetchGo, hf, hlt]

/-- Helper: with at least one loop iteration left, `commentGo` makes at least
one attempt. -/
theorem commentGo_attempts_pos (g : Nat → CommentAttempt) (maxR fuel attempt : Nat)
    (le : String) (hfuel : ∃ k, fuel = k + 1) :
    1 ≤ (commentGo g maxR fuel attempt le).attemptsMade := by
  obtain ⟨k, rfl⟩ := hfuel
  cases hg : g attempt with
  | ok => simp [commentGo, hg]
  | exitErr s =>
    by_cases hn : isNetworkError s <;> by_cases hlt : attempt < maxR <;>
      simp [commentGo, hg, hn, hlt]
  | timedOut => by_cases hlt : attempt < maxR <;> simp [commentGo, hg, hlt]
  | exc m => by_cases hlt : attempt < maxR <;> simp [commentGo, hg, hlt]

/-- Helper: a code-retryable attempt below the retry cap makes `fetchGo` sleep
`2^attempt` seconds and move to the next attempt. -/
theorem fetchGo_code_retry_step (f : Nat → FetchAttempt) (maxR fuel attempt : Nat)
    (h : codeRetryableFetch (f attempt) = true) (hlt : attempt < maxR) :
    fetchGo f maxR (fuel + 1) attempt =
      ⟨2 ^ attempt :: (fetchGo f maxR fuel (attempt + 1)).sleeps,
        (fetchGo f maxR fuel (attempt + 1)).attemptsMade + 1,
        (fetchGo f maxR fuel (attempt + 1)).outcome⟩ := by
  cases hf : f attempt with
  | ok => simp [codeRetryableFetch, hf] at h
  | exitErr rc s =>
    have hn : isNetworkError s = true := by simpa [codeRetryableFetch, hf] using h
    simp [fetchGo, hf, hn, hlt]
  | timedOut => simp [fetchGo, hf, hlt]
  | cliMissing => simp [codeRetryableFetch, hf] at h
  | exc m => simp [fetchGo, hf, hlt]

/-- Helper: same as `fetchGo_code_retry_step` for `make_issue_comment`. -/
theorem commentGo_code_retry_step (g : Nat → CommentAttempt) (maxR fuel attempt : Nat)
    (le : String) (h : codeRetryableComment (g attempt) = true) (hlt : attempt < maxR) :
    ∃ le2, commentGo g maxR (fuel + 1) attempt le =
      ⟨2 ^ attempt :: (commentGo g maxR fuel (attempt + 1) le2).sleeps,
        (commentGo g maxR fuel (attempt + 1) le2).attemptsMade + 1,
        (commentGo g maxR fuel (attempt + 1) le2).outcome⟩ := by
  cases hg : g attempt with
  | ok => simp [codeRetryableComment, hg] at h
  | exitErr s =>
    have hn : isNetworkError s = true := by simpa [codeRetryableComment, hg] using h
    exact ⟨s, by simp [commentGo, hg, hn, hlt]⟩
  | timedOut => exact ⟨"subprocess timed out after 30s", by simp [commentGo, hg, hlt]⟩
  | exc m => exact ⟨m, by simp [commentGo, hg, hlt]⟩

/-- C3 (amended): a failed attempt of a retry-wrapped tracker call is retried
iff it is a nonzero exit whose stderr contains one of the substrings
`timeout`, `i/o`, `dial tcp` (case-insensitive), or a process-timeout, or any
other unexpected exception (e.g. a JSON parse error); only a nonzero exit
without a network substring — and, for `fetch_issue`, a missing gh CLI —
aborts immediately, without sleeping and without consuming further attempts. -/
theorem C3_retry_condition_amended :
    (∀ f : Nat → FetchAttempt, f 1 ≠ FetchAttempt.ok →
      (codeRetryableFetch (f 1) = true →
        (fetch_issue_run f 3).sleeps.head? = some 2 ∧
          2 ≤ (fetch_issue_run f 3).attemptsMade) ∧
      (codeRetryableFetch (f 1) = false →
        (fetch_issue_run f 3).sleeps = [] ∧ (fetch_issue_run f 3).attemptsMade = 1 ∧
          ∃ c, (fetch_issue_run f 3).outcome = FetchOutcome.exited c)) ∧
    (∀ g : Nat → CommentAttempt, g 1 ≠ CommentAttempt.ok →
      (codeRetryableComment (g 1) = true →
        (make_issue_comment_run g 3).sleeps.head? = some 2 ∧
          2 ≤ (make_issue_comment_run g 3).attemptsMade) ∧
      (codeRetryableComment (g 1) = false →
        (make_issue_comment_run g 3).sleeps = [] ∧
          (make_issue_comment_run g 3).attemptsMade = 1 ∧
          ∃ m, (make_issue_comment_run g 3).outcome = CommentOutcome.raised m)) := by
  constructor
  · intro f hne
    constructor
    · intro hr
      have h2 := fetchGo_attempts_pos f 3 2 (1 + 1) ⟨1, rfl⟩
      unfold fetch_issue_run
      have e1 : fetchGo f 3 3 1 = fetchGo f 3 (2 + 1) 1 := rfl
      rw [e1, fetchGo_code_retry_step f 3 2 1 hr (by omega)]
      refine ⟨by norm_num, ?_⟩
      dsimp only
      omega
    · intro hr
      unfold fetch_issue_run
      cases hf : f 1 with
      | ok => exact absurd hf hne
      | exitErr rc s =>
        have hn : isNetworkError s = false := by simpa [codeRetryableFetch, hf] using hr
        exact ⟨by simp [fetchGo, hf, hn], by simp [fetchGo, hf, hn], rc,
          by simp [fetchGo, hf, hn]⟩
      | timedOut => simp [codeRetryableFetch, hf] at hr
      | cliMissing =>
        exact ⟨by simp [fetchGo, hf], by simp [fetchGo, hf], 1, by simp [fetchGo, hf]⟩
      | exc m => simp [codeRetryableFetch, hf] at hr
  · intro g hne
    constructor
    · intro hr
      obtain ⟨le2, hstep⟩ := commentGo_code_retry_step g 3 2 1 "" hr (by omega)
      have h2 := commentGo_attempts_pos g 3 2 (1 + 1) le2 ⟨1, rfl⟩
      unfold make_issue_comment_run
      have e1 : commentGo g 3 3 1 "" = commentGo g 3 (2 + 1) 1 "" := rfl
      rw [e1, hstep]
      refine ⟨by norm_num, ?_⟩
      dsimp only
      omega
    · intro hr
      unfold make_issue_comment_run
      cases hg : g 1 with
      | ok => exact absurd hg hne
      | exitErr s =>
        have hn : isNetworkError s = false := by simpa [codeRetryableComment, hg] using hr
        exact ⟨by simp [commentGo, hg, hn], by simp [commentGo, hg, hn],
          "Failed to post comment: " ++ s, by simp [commentGo, hg, hn]⟩
      | timedOut => simp [codeRetryableComment, hg] at hr
      | exc m => simp [codeRetryableComment, hg] at hr

/-- C3 amended witness: a retried network failure and an immediately-aborting
non-network failure, at concrete attempt outcomes. -/
theorem C3_retry_condition_amended_witness :
    ((fetch_issue_run fetchRetrySchedule 3).sleeps.head? = some 2 ∧
      2 ≤ (fetch_issue_run fetchRetrySchedule 3).attemptsMade) ∧
    ((fetch_issue_run (fun _ => FetchAttempt.exitErr 4 "gh: Not Found (HTTP 404)") 3).sleeps = [] ∧
      (fetch_issue_run (fun _ => FetchAttempt.exitErr 4 "gh: Not Found (HTTP 404)") 3).attemptsMade = 1 ∧
      ∃ c, (fetch_issue_run (fun _ => FetchAttempt.exitErr 4 "gh: Not Found (HTTP 404)") 3).outcome =
        FetchOutcome.exited c) :=
  ⟨(C3_retry_condition_amended.1 fetchRetrySchedule (by decide)).1 (by decide),
   (C3_retry_condition_amended.1 (fun _ => FetchAttempt.exitErr 4 "gh: Not Found (HTTP 404)")
      (by decide)).2 (by decide)⟩

/-- C5: the concurrent dispatcher (`should_process_issue` in trigger_cron.py)
applies no bot-marker filter to the latest comment: a comment carrying the
bot marker `[ADW-AGENTS]` and the trigger keyword IS treated as a trigger and
dispatches `adw_sdlc_iso`, while the ZTE dispatcher (`has_adw_run`) correctly
excludes the same comment — contradicting the claimed common anti-loop
invariant. -/
theorem C5_bot_comment_triggers_cron :
    pyIn ADW_BOT_IDENTIFIER botTriggerComment.body = true ∧
    should_process_issue 5 "" [] [botTriggerComment] (fun _ => none) = some "adw_sdlc_iso" ∧
    has_adw_run "" [botTriggerComment.body] = false := by
  refine ⟨by decide, by decide, by decide⟩

/-- C10: the file content embedded by `upload_file_as_comment` never exceeds
`GITHUB_COMMENT_MAX_SIZE = 65000` characters: longer content is cut to exactly
its first 65000 characters with the truncation notice appended after the code
fence, and content of at most 65000 characters is embedded unchanged with no
notice. -/
theorem C10_upload_truncation (adwId fileType fileName content : String) :
    (truncateContent content).1.length ≤ GITHUB_COMMENT_MAX_SIZE ∧
    (content.length ≤ GITHUB_COMMENT_MAX_SIZE → truncateContent content = (content, false)) ∧
    (content.length > GITHUB_COMMENT_MAX_SIZE →
      truncateContent content = (⟨content.data.take GITHUB_COMMENT_MAX_SIZE⟩, true)) ∧
    ∃ pre, build_upload_comment adwId fileType fileName content =
      pre ++ "```markdown\n" ++ (truncateContent content).1 ++ "\n```" ++
        (if (truncateContent content).2 then truncationNote else "") ++ "\n" ++ "</details>" := by
  refine ⟨?_, ?_, ?_, ⟨_, rfl⟩⟩
  · by_cases h : content.length > GITHUB_COMMENT_MAX_SIZE
    · simp only [truncateContent, if_pos h]
      show (content.data.take GITHUB_COMMENT_MAX_SIZE).length ≤ GITHUB_COMMENT_MAX_SIZE
      simp [List.length_take]
    · simp only [truncateContent, if_neg h]
      omega
  · intro h
    have h2 : ¬ content.length > GITHUB_COMMENT_MAX_SIZE := by omega
    simp [truncateContent, h2]
  · intro h
    simp [truncateContent, h]

/-- Helper: the length of the oversized witness content. -/
theorem bigContent_length : bigContent.length = 65001 := by
  have hdata : bigContent.data = List.replicate 65001 'a' := rfl
  show bigContent.data.length = 65001
  rw [hdata, List.length_replicate]

/-- C10 witness: truncation at 65001 characters and pass-through at 5. -/
theorem C10_upload_truncation_witness :
    (truncateContent bigContent = (⟨bigContent.data.take GITHUB_COMMENT_MAX_SIZE⟩, true)) ∧
    truncateContent "hello" = ("hello", false) :=
  ⟨(C10_upload_truncation "a1b2c3d4" "plan" "prd.md" bigContent).2.2.1
      (by rw [bigContent_length]; decide),
   (C10_upload_truncation "a1b2c3d4" "plan" "prd.md" "hello").2.1 (by decide)⟩

/-- Helper: `process_queue` halts at the first failing item: when it reports a
failure, the failing item's workflow returned false, the attempted items are
exactly the leading successful ones followed by the failing one, and they form
a prefix of the queue — no later item is attempted. -/
theorem process_queue_spec (w : Nat → Bool) (l : List Nat) (n : Nat)
    (h : (process_queue w l).failed = some n) :
    w n = false ∧
      (process_queue w l).attempted = l.takeWhile w ++ [n] ∧
      ∃ rest, l = (process_queue w l).attempted ++ rest := by
  induction l with
  | nil => simp [process_queue] at h
  | cons a t ih =>
    by_cases hw : w a
    · have hfail : (process_queue w t).failed = some n := by
        simpa [process_queue, hw] using h
      obtain ⟨h1, h2, rest, h3⟩ := ih hfail
      refine ⟨h1, ?_, rest, ?_⟩
      · simp [process_queue, hw, List.takeWhile_cons, h2]
      · simp [process_queue, hw]
        exact h3
    · have hn : n = a := by
        have := h
        simp [process_queue, hw] at this
        omega
      subst hn
      refine ⟨by simpa using hw, ?_, t, ?_⟩
      · simp [process_queue, hw, List.takeWhile_cons]
      · simp [process_queue, hw]

/-- C4: each ZTE scan pass builds an ascending-sorted queue of qualifying
issue numbers and processes it sequentially; if an item's workflow fails, the
attempted items are exactly the queue up to and including the first failure —
a prefix of the queue, so no later item in that pass is attempted — and the
pass exits the process with code 1. -/
theorem C4_sequential_queue_halt (issues : List IssueItem) (completed : List Nat)
    (w : Nat → Bool) :
    List.Sorted (· ≤ ·) (find_qualifying_issues issues completed) ∧
    ∀ n, (process_queue w (find_qualifying_issues issues completed)).failed = some n →
      w n = false ∧
      (process_queue w (find_qualifying_issues issues completed)).attempted =
        (find_qualifying_issues issues completed).takeWhile w ++ [n] ∧
      (∃ rest, find_qualifying_issues issues completed =
        (process_queue w (find_qualifying_issues issues completed)).attempted ++ rest) ∧
      zteScanPassExit w issues completed = some 1 := by
  constructor
  · exact List.sorted_insertionSort (· ≤ ·) _
  · intro n h
    obtain ⟨h1, h2, rest, h3⟩ := process_queue_spec w _ n h
    refine ⟨h1, h2, ⟨rest, h3⟩, ?_⟩
    have hq : ¬ (find_qualifying_issues issues completed).isEmpty := by
      intro he
      rw [List.isEmpty_iff] at he
      rw [he] at h
      simp [process_queue] at h
    simp [zteScanPassExit, hq, h]

/-- C4 witness: issues 42, 7, 100 qualify, the queue is [7, 42, 100], item 7
fails, items 42 and 100 are not attempted, and the pass exits 1. -/
theorem C4_sequential_queue_halt_witness :
    List.Sorted (· ≤ ·) (find_qualifying_issues zteIssuesW []) ∧
    (zteWorkflowW 7 = false ∧
      (process_queue zteWorkflowW (find_qualifying_issues zteIssuesW [])).attempted =
        (find_qualifying_issues zteIssuesW []).takeWhile zteWorkflowW ++ [7] ∧
      (∃ rest, find_qualifying_issues zteIssuesW [] =
        (process_queue zteWorkflowW (find_qualifying_issues zteIssuesW [])).attempted ++ rest) ∧
      zteScanPassExit zteWorkflowW zteIssuesW [] = some 1) :=
  ⟨(C4_sequential_queue_halt zteIssuesW [] zteWorkflowW).1,
   (C4_sequential_queue_halt zteIssuesW [] zteWorkflowW).2 7 (by decide)⟩

/-- Helper: looking up the freshly upserted key returns the new value. -/
theorem lookupLog_upsert (log : List (String × String)) (k v : String) :
    lookupLog (upsertLog log k v) k = some v := by
  induction log with
  | nil => simp [upsertLog, lookupLog]
  | cons e rest ih =>
    by_cases hk : e.1 = k
    · simp [upsertLog, hk, lookupLog]
    · simpa [upsertLog, hk, lookupLog, List.find?] using ih

/-- Helper: a name ending in `.md` does not end in `.pdf`. -/
theorem ends_md_not_pdf (s : String) (h : pyEndsWith s ".md" = true) :
    pyEndsWith s ".pdf" = false := by
  unfold pyEndsWith at h ⊢
  cases hr : s.data.reverse with
  | nil => rw [hr] at h; simp [startsWithL] at h
  | cons c cs =>
    rw [hr] at h
    have hc : c = 'd' := by
      have := h
      simp [show (".md".data.reverse) = ['d', 'm', '.'] from rfl, startsWithL] at this
      exact this.1
    simp [show (".pdf".data.reverse) = ['f', 'd', 'p', '.'] from rfl, startsWithL, hc]

/-- C8: the watcher never redispatches a file logged with an unchanged
modification time; a watched file (allowed extension, not a dotfile, not
README.md) absent from the log or logged with a changed mtime is dispatched
exactly once in the scan; and marking a file processed makes `is_processed`
true, so the next scan skips it. -/
theorem C8_watcher_dedup (log : List (String × String)) (files : List WatchFile)
    (f : WatchFile) :
    (is_processed log f = true → f ∉ check_transcript_folder log files) ∧
    (f ∈ files → files.Nodup →
      (pyEndsWith f.name ".md" || pyEndsWith f.name ".pdf") = true →
      pyStartsWith f.name "." = false → f.name ≠ "README.md" →
      is_processed log f = false →
      (check_transcript_folder log files).count f = 1) ∧
    is_processed (mark_processed log f) f = true := by
  refine ⟨?_, ?_, ?_⟩
  · intro hp hmem
    rw [check_transcript_folder, List.mem_append] at hmem
    rcases hmem with hmem | hmem <;>
      · rw [newFilesForExt, List.mem_filter] at hmem
        simp [hp] at hmem
  · intro hmem hnd hext hdot hname hp
    rw [check_transcript_folder, List.count_append]
    rcases Bool.or_eq_true_iff.mp hext with hmd | hpdf
    · have hnot : pyEndsWith f.name ".pdf" = false := ends_md_not_pdf f.name hmd
      have c1 : (newFilesForExt log files ".md").count f = files.count f := by
        rw [newFilesForExt, List.count_filter (by simp [hmd, hdot, hname, hp])]
      have c2 : (newFilesForExt log files ".pdf").count f = 0 := by
        rw [List.count_eq_zero]
        intro hin
        rw [newFilesForExt, List.mem_filter] at hin
        simp [hnot] at hin
      rw [c1, c2, List.count_eq_one_of_mem hnd hmem]
    · have hnot : pyEndsWith f.name ".md" = false := by
        by_contra hc
        have := ends_md_not_pdf f.name (by simpa using hc)
        rw [hpdf] at this
        exact absurd this (by simp)
      have c1 : (newFilesForExt log files ".md").count f = 0 := by
        rw [List.count_eq_zero]
        intro hin
        rw [newFilesForExt, List.mem_filter] at hin
        simp [hnot] at hin
      have c2 : (newFilesForExt log files ".pdf").count f = files.count f := by
        rw [newFilesForExt, List.count_filter (by simp [hpdf, hdot, hname, hp])]
      rw [c1, c2, List.count_eq_one_of_mem hnd hmem]
  · rw [mark_processed, is_processed, lookupLog_upsert]
    simp

/-- C8 witness: a logged unchanged file is skipped and a new file is
dispatched exactly once. -/
theorem C8_watcher_dedup_witness :
    ((⟨"transcripts/a.md", "2026-01-01T00:00:00+00:00"⟩ : WatchFile) ∉
      check_transcript_folder watchLogW watchFilesW) ∧
    (check_transcript_folder watchLogW watchFilesW).count
      ⟨"transcripts/b.md", "2026-02-02T00:00:00+00:00"⟩ = 1 :=
  ⟨(C8_watcher_dedup watchLogW watchFilesW _).1 (by decide),
   (C8_watcher_dedup watchLogW watchFilesW _).2.1 (by decide) (by decide) (by decide)
     (by decide) (by decide) (by decide)⟩

/-- Helper: one unfolding of the unit-test resolution loop on a parsed run. -/
theorem run_tests_loop_step (runs : Nat → RunOut) (resolver : Nat → String → Bool)
    (maxA fuel attempt : Nat) (st : TestLoopState) (ts : List TestR)
    (h1 : runs (attempt + 1) = RunOut.ok ts) :
    run_tests_loop runs resolver maxA (fuel + 1) attempt st =
      (if countFailed ts = 0 then
        (⟨st.executions + 1, ts, countPassed ts, countFailed ts⟩ : TestLoopState)
      else if attempt + 1 = maxA then
        ⟨st.executions + 1, ts, countPassed ts, countFailed ts⟩
      else if (resolve_failed_tests resolver (attempt + 1)
          (ts.filter (fun t => !t.passed))).1 > 0 then
        run_tests_loop runs resolver maxA fuel (attempt + 1)
          ⟨st.executions + 1, ts, countPassed ts, countFailed ts⟩
      else ⟨st.executions + 1, ts, countPassed ts, countFailed ts⟩) := by
  simp [run_tests_loop, h1]

/-- Helper: the unit-test loop performs at most `fuel` further layer executions. -/
theorem run_tests_loop_exec_le (runs : Nat → RunOut) (resolver : Nat → String → Bool)
    (maxA : Nat) : ∀ (fuel attempt : Nat) (st : TestLoopState),
    (run_tests_loop runs resolver maxA fuel attempt st).executions ≤
      st.executions + fuel := by
  intro fuel
  induction fuel with
  | zero => intro attempt st; simp [run_tests_loop]
  | succ k ih =>
    intro attempt st
    cases h1 : runs (attempt + 1) with
    | err => simp [run_tests_loop, h1]
    | ok ts =>
      rw [run_tests_loop_step runs resolver maxA k attempt st ts h1]
      split
      · simp
      · split
        · simp
        · split
          · have := ih (attempt + 1) ⟨st.executions + 1, ts, countPassed ts, countFailed ts⟩
            simp at this ⊢
            omega
          · simp

/-- Helper: the unit-test loop never decreases the execution count. -/
theorem run_tests_loop_exec_mono (runs : Nat → RunOut) (resolver : Nat → String → Bool)
    (maxA : Nat) : ∀ (fuel attempt : Nat) (st : TestLoopState),
    st.executions ≤ (run_tests_loop runs resolver maxA fuel attempt st).executions := by
  intro fuel
  induction fuel with
  | zero => intro attempt st; simp [run_tests_loop]
  | succ k ih =>
    intro attempt st
    cases h1 : runs (attempt + 1) with
    | err => simp [run_tests_loop, h1]
    | ok ts =>
      rw [run_tests_loop_step runs resolver maxA k attempt st ts h1]
      split
      · simp
      · split
        · simp
        · split
          · have := ih (attempt + 1) ⟨st.executions + 1, ts, countPassed ts, countFailed ts⟩
            simp at this
            omega
          · simp

/-- Helper: with at least one iteration left, the loop executes the layer at
least once more. -/
theorem run_tests_loop_exec_pos (runs : Nat → RunOut) (resolver : Nat → String → Bool)
    (maxA fuel attempt : Nat) (st : TestLoopState) :
    st.executions + 1 ≤ (run_tests_loop runs resolver maxA (fuel + 1) attempt st).executions := by
  cases h1 : runs (attempt + 1) with
  | err => simp [run_tests_loop, h1]
  | ok ts =>
    rw [run_tests_loop_step runs resolver maxA fuel attempt st ts h1]
    split
    · simp
    · split
      · simp
      · split
        · have := run_tests_loop_exec_mono runs resolver maxA fuel (attempt + 1)
            ⟨st.executions + 1, ts, countPassed ts, countFailed ts⟩
          simp at this
          omega
        · simp

/-- C6: the unit-test resolution loop cannot iterate forever — it executes the
layer at most `fuel = max_attempts` times — and in the scenario where the same
single test case fails on every execution while each resolution round reports
success (the failure is never actually resolved), the layer is executed
exactly `MAX_TEST_RETRY_ATTEMPTS = 4` times and the loop stops, still
returning that one failure. -/
theorem C6_resolution_loop_terminates :
    (∀ (runs : Nat → RunOut) (resolver : Nat → String → Bool)
      (maxA fuel attempt : Nat) (st : TestLoopState),
      (run_tests_loop runs resolver maxA fuel attempt st).executions ≤
        st.executions + fuel) ∧
    (∀ (runs : Nat → RunOut) (resolver : Nat → String → Bool) (nm : String),
      (∀ i, runs i = RunOut.ok [⟨nm, false⟩]) →
      (∀ i s, resolver i s = true) →
      run_tests_with_resolution runs resolver MAX_TEST_RETRY_ATTEMPTS =
        ⟨4, [⟨nm, false⟩], 0, 1⟩) := by
  constructor
  · intro runs resolver maxA fuel attempt st
    exact run_tests_loop_exec_le runs resolver maxA fuel attempt st
  · intro runs resolver nm hruns hres
    show run_tests_loop runs resolver 4 4 0 ⟨0, [], 0, 0⟩ = ⟨4, [⟨nm, false⟩], 0, 1⟩
    rw [show (4 : Nat) = 3 + 1 from rfl]
    rw [run_tests_loop_step runs resolver (3 + 1) 3 0 ⟨0, [], 0, 0⟩ _ (hruns 1)]
    rw [show (3 : Nat) = 2 + 1 from rfl]
    rw [run_tests_loop_step runs resolver (2 + 1 + 1) 2 1 _ _ (hruns 2)]
    rw [show (2 : Nat) = 1 + 1 from rfl]
    rw [run_tests_loop_step runs resolver (1 + 1 + 1 + 1) 1 2 _ _ (hruns 3)]
    rw [run_tests_loop_step runs resolver (1 + 1 + 1 + 1) 0 3 _ _ (hruns 4)]
    simp [countFailed, countPassed, resolve_failed_tests, hres]

/-- C6 witness: the never-resolved single failing case at concrete inputs. -/
theorem C6_resolution_loop_terminates_witness :
    run_tests_with_resolution runsC6 resolverAlwaysTrue MAX_TEST_RETRY_ATTEMPTS =
      ⟨4, [⟨"test_api_totals", false⟩], 0, 1⟩ ∧
    (run_tests_loop runsC6 resolverAlwaysTrue 4 4 0 ⟨0, [], 0, 0⟩).executions ≤ 0 + 4 :=
  ⟨C6_resolution_loop_terminates.2 runsC6 resolverAlwaysTrue "test_api_totals"
      (fun _ => rfl) (fun _ _ => rfl),
   C6_resolution_loop_terminates.1 runsC6 resolverAlwaysTrue 4 4 0 ⟨0, [], 0, 0⟩⟩

/-- C7 counterexample: a run of the API-integration layer with changed routes,
a healthy server and one failing parsed case executes the `/test_api` suite
exactly once and invokes no resolver, although the attempt budget
`MAX_API_TEST_RETRY_ATTEMPTS = 2` would allow a resolution round and a re-run —
the claimed resolution sub-loop does not exist in this layer. -/
theorem C7_counterexample :
    (run_api_integration_tests apiCexInput).failedCount = 1 ∧
    (run_api_integration_tests apiCexInput).suiteExecutions = 1 ∧
    (run_api_integration_tests apiCexInput).resolverInvocations = 0 ∧
    MAX_API_TEST_RETRY_ATTEMPTS = 2 := by
  refine ⟨by decide, by decide, by decide, by decide⟩

/-- Helper: one unfolding of the E2E resolution loop. -/
theorem run_e2e_loop_step (files : List String) (outcome : Nat → String → Bool)
    (resolver : Nat → String → Bool) (maxA fuel attempt : Nat) (st : E2ELoopState) :
    run_e2e_loop files outcome resolver maxA (fuel + 1) attempt st =
      (let rs := run_e2e_tests outcome (attempt + 1) files
      if rs.isEmpty then { st with executions := st.executions + 1 }
      else if countE2eFailed rs = 0 then
        (⟨st.executions + 1, rs, countE2ePassed rs, countE2eFailed rs⟩ : E2ELoopState)
      else if attempt + 1 = maxA then
        ⟨st.executions + 1, rs, countE2ePassed rs, countE2eFailed rs⟩
      else if ((rs.filter (fun r => !r.2)).filter (fun r => resolver (attempt + 1) r.1)).length > 0 then
        run_e2e_loop files outcome resolver maxA fuel (attempt + 1)
          ⟨st.executions + 1, rs, countE2ePassed rs, countE2eFailed rs⟩
      else ⟨st.executions + 1, rs, countE2ePassed rs, countE2eFailed rs⟩) := by
  simp [run_e2e_loop]

/-- Helper: the E2E loop never decreases the execution count. -/
theorem run_e2e_loop_exec_mono (files : List String) (outcome : Nat → String → Bool)
    (resolver : Nat → String → Bool) (maxA : Nat) :
    ∀ (fuel attempt : Nat) (st : E2ELoopState),
    st.executions ≤ (run_e2e_loop files outcome resolver maxA fuel attempt st).executions := by
  intro fuel
  induction fuel with
  | zero => intro attempt st; simp [run_e2e_loop]
  | succ k ih =>
    intro attempt st
    rw [run_e2e_loop_step]
    simp only []
    split
    · simp
    · split
      · simp
      · split
        · simp
        · split
          · have := ih (attempt + 1)
              ⟨st.executions + 1, run_e2e_tests outcome (attempt + 1) files,
                countE2ePassed (run_e2e_tests outcome (attempt + 1) files),
                countE2eFailed (run_e2e_tests outcome (attempt + 1) files)⟩
            simp at this
            omega
          · simp

/-- Helper: with at least one iteration left, the E2E loop executes the layer
at least once more. -/
theorem run_e2e_loop_exec_pos (files : List String) (outcome : Nat → String → Bool)
    (resolver : Nat → String → Bool) (maxA fuel attempt : Nat) (st : E2ELoopState) :
    st.executions + 1 ≤
      (run_e2e_loop files outcome resolver maxA (fuel + 1) attempt st).executions := by
  rw [run_e2e_loop_step]
  simp only []
  split
  · simp
  · split
    · simp
    · split
      · simp
      · split
        · have := run_e2e_loop_exec_mono files outcome resolver maxA fuel (attempt + 1)
            ⟨st.executions + 1, run_e2e_tests outcome (attempt + 1) files,
              countE2ePassed (run_e2e_tests outcome (attempt + 1) files),
              countE2eFailed (run_e2e_tests outcome (attempt + 1) files)⟩
          simp at this
          omega
        · simp

/-- C7 (amended): the unit and end-to-end layers run the internal resolution
sub-loop — stop at zero failures; while attempts remain, re-run after a
resolution round that reports progress; stop early when nothing is resolved,
still reporting the failures — but the API-integration layer does not: it
executes the `/test_api` suite at most once and never invokes a resolver,
even though `MAX_API_TEST_RETRY_ATTEMPTS = 2` is defined. -/
theorem C7_resolution_subloop_amended :
    (∀ (runs : Nat → RunOut) (resolver : Nat → String → Bool) (ts : List TestR),
      runs 1 = RunOut.ok ts → countFailed ts = 0 →
      run_tests_with_resolution runs resolver MAX_TEST_RETRY_ATTEMPTS =
        ⟨1, ts, countPassed ts, 0⟩) ∧
    (∀ (runs : Nat → RunOut) (resolver : Nat → String → Bool) (ts : List TestR),
      runs 1 = RunOut.ok ts → 0 < countFailed ts →
      0 < (resolve_failed_tests resolver 1 (ts.filter (fun t => !t.passed))).1 →
      2 ≤ (run_tests_with_resolution runs resolver MAX_TEST_RETRY_ATTEMPTS).executions) ∧
    (∀ (runs : Nat → RunOut) (resolver : Nat → String → Bool) (ts : List TestR),
      runs 1 = RunOut.ok ts → 0 < countFailed ts →
      (resolve_failed_tests resolver 1 (ts.filter (fun t => !t.passed))).1 = 0 →
      run_tests_with_resolution runs resolver MAX_TEST_RETRY_ATTEMPTS =
        ⟨1, ts, countPassed ts, countFailed ts⟩) ∧
    (∀ (files : List String) (outcome : Nat → String → Bool)
      (resolver : Nat → String → Bool),
      run_e2e_tests outcome 1 files ≠ [] →
      countE2eFailed (run_e2e_tests outcome 1 files) = 0 →
      run_e2e_tests_with_resolution files outcome resolver MAX_E2E_TEST_RETRY_ATTEMPTS =
        ⟨1, run_e2e_tests outcome 1 files,
          countE2ePassed (run_e2e_tests outcome 1 files), 0⟩) ∧
    (∀ (files : List String) (outcome : Nat → String → Bool)
      (resolver : Nat → String → Bool),
      0 < countE2eFailed (run_e2e_tests outcome 1 files) →
      0 < (((run_e2e_tests outcome 1 files).filter (fun r => !r.2)).filter
        (fun r => resolver 1 r.1)).length →
      2 ≤ (run_e2e_tests_with_resolution files outcome resolver
        MAX_E2E_TEST_RETRY_ATTEMPTS).executions) ∧
    (∀ (files : List String) (outcome : Nat → String → Bool)
      (resolver : Nat → String → Bool),
      run_e2e_tests outcome 1 files ≠ [] →
      0 < countE2eFailed (run_e2e_tests outcome 1 files) →
      (((run_e2e_tests outcome 1 files).filter (fun r => !r.2)).filter
        (fun r => resolver 1 r.1)).length = 0 →
      run_e2e_tests_with_resolution files outcome resolver MAX_E2E_TEST_RETRY_ATTEMPTS =
        ⟨1, run_e2e_tests outcome 1 files,
          countE2ePassed (run_e2e_tests outcome 1 files),
          countE2eFailed (run_e2e_tests outcome 1 files)⟩) ∧
    (∀ inp : ApiInput, (run_api_integration_tests inp).suiteExecutions ≤ 1 ∧
      (run_api_integration_tests inp).resolverInvocations = 0) := by
  refine ⟨?_, ?_, ?_, ?_, ?_, ?_, ?_⟩
  · intro runs resolver ts h1 hf0
    show run_tests_loop runs resolver 4 4 0 ⟨0, [], 0, 0⟩ = ⟨1, ts, countPassed ts, 0⟩
    rw [show (4 : Nat) = 3 + 1 from rfl,
      run_tests_loop_step runs resolver (3 + 1) 3 0 ⟨0, [], 0, 0⟩ ts h1]
    simp [hf0]
  · intro runs resolver ts h1 hfpos hres
    show 2 ≤ (run_tests_loop runs resolver 4 4 0 ⟨0, [], 0, 0⟩).executions
    rw [show (4 : Nat) = 3 + 1 from rfl,
      run_tests_loop_step runs resolver (3 + 1) 3 0 ⟨0, [], 0, 0⟩ ts h1]
    simp only [Nat.zero_add]
    rw [if_neg (by omega), if_neg (by omega), if_pos hres]
    have := run_tests_loop_exec_pos runs resolver (3 + 1) 2 1
      ⟨0 + 1, ts, countPassed ts, countFailed ts⟩
    simp at this ⊢
    omega
  · intro runs resolver ts h1 hfpos hres0
    show run_tests_loop runs resolver 4 4 0 ⟨0, [], 0, 0⟩ =
      ⟨1, ts, countPassed ts, countFailed ts⟩
    rw [show (4 : Nat) = 3 + 1 from rfl,
      run_tests_loop_step runs resolver (3 + 1) 3 0 ⟨0, [], 0, 0⟩ ts h1]
    simp only [Nat.zero_add]
    rw [if_neg (by omega), if_neg (by omega), if_neg (by omega)]
  · intro files outcome resolver hne hf0
    show run_e2e_loop files outcome resolver 2 2 0 ⟨0, [], 0, 0⟩ = _
    rw [show (2 : Nat) = 1 + 1 from rfl, run_e2e_loop_step]
    simp only []
    rw [if_neg (by simpa [List.isEmpty_iff] using hne), if_pos hf0]
    simp [hf0]
  · intro files outcome resolver hfpos hres
    have hne : ¬ (run_e2e_tests outcome 1 files).isEmpty := by
      rw [List.isEmpty_iff]
      intro he
      rw [he] at hfpos
      simp [countE2eFailed] at hfpos
    show 2 ≤ (run_e2e_loop files outcome resolver 2 2 0 ⟨0, [], 0, 0⟩).executions
    rw [show (2 : Nat) = 1 + 1 from rfl, run_e2e_loop_step]
    simp only [Nat.zero_add]
    rw [if_neg hne, if_neg (by omega), if_neg (by omega), if_pos (by omega)]
    have := run_e2e_loop_exec_mono files outcome resolver (1 + 1) 1 1
      ⟨0 + 1, run_e2e_tests outcome 1 files,
        countE2ePassed (run_e2e_tests outcome 1 files),
        countE2eFailed (run_e2e_tests outcome 1 files)⟩
    have h1 := run_e2e_loop_exec_pos files outcome resolver (1 + 1) 0 1
      ⟨0 + 1, run_e2e_tests outcome 1 files,
        countE2ePassed (run_e2e_tests outcome 1 files),
        countE2eFailed (run_e2e_tests outcome 1 files)⟩
    simp at h1 ⊢
    omega
  · intro files outcome resolver hne hfpos hres0
    show run_e2e_loop files outcome resolver 2 2 0 ⟨0, [], 0, 0⟩ = _
    rw [show (2 : Nat) = 1 + 1 from rfl, run_e2e_loop_step]
    simp only [Nat.zero_add]
    rw [if_neg (by simpa [List.isEmpty_iff] using hne), if_neg (by omega),
      if_neg (by omega), if_neg (by omega)]
  · intro inp
    unfold run_api_integration_tests
    split
    · simp
    · split
      · simp
      · split
        · simp
        · split
          · simp
          · simp

/-- C7 amended witness: concrete passing unit run, concrete re-run after a
reported resolution, and the single-shot API layer on the concrete failing
input. -/
theorem C7_resolution_subloop_amended_witness :
    run_tests_with_resolution (fun _ => RunOut.ok [⟨"test_health", true⟩])
      resolverAlwaysTrue MAX_TEST_RETRY_ATTEMPTS =
      ⟨1, [⟨"test_health", true⟩], 1, 0⟩ ∧
    2 ≤ (run_tests_with_resolution runsC6 resolverAlwaysTrue
      MAX_TEST_RETRY_ATTEMPTS).executions ∧
    ((run_api_integration_tests apiCexInput).suiteExecutions ≤ 1 ∧
      (run_api_integration_tests apiCexInput).resolverInvocations = 0) :=
  ⟨C7_resolution_subloop_amended.1 (fun _ => RunOut.ok [⟨"test_health", true⟩])
      resolverAlwaysTrue [⟨"test_health", true⟩] rfl (by decide),
   C7_resolution_subloop_amended.2.1 runsC6 resolverAlwaysTrue
      [⟨"test_api_totals", false⟩] rfl (by decide) (by decide),
   C7_resolution_subloop_amended.2.2.2.2.2.2 apiCexInput⟩

/-- Helper: stage log lists contain only log-file events, never invocations. -/
@[simp] theorem invoke_not_mem_stageLogs (k : Nat) (a b : String) (r : StageResult) :
    Ev.invoke k ∉ stageLogs a b r := by
  by_cases hs : r.stderr = "" <;> simp [stageLogs, hs]

@[simp] theorem save_not_mem_stageLogs (a b : String) (r : StageResult) :
    Ev.save ∉ stageLogs a b r := by
  by_cases hs : r.stderr = "" <;> simp [stageLogs, hs]

@[simp] theorem exitEv_not_mem_stageLogs (c : Int) (a b : String) (r : StageResult) :
    Ev.exit c ∉ stageLogs a b r := by
  by_cases hs : r.stderr = "" <;> simp [stageLogs, hs]

@[simp] theorem mergeAttempt_not_mem_stageLogs (a b : String) (r : StageResult) :
    Ev.mergeAttempt ∉ stageLogs a b r := by
  by_cases hs : r.stderr = "" <;> simp [stageLogs, hs]

@[simp] theorem summary_not_mem_stageLogs (s a b : String) (r : StageResult) :
    Ev.summary s ∉ stageLogs a b r := by
  by_cases hs : r.stderr = "" <;> simp [stageLogs, hs]

/-- Helper: the stdout log is always written. -/
@[simp] theorem stdout_mem_stageLogs (a b : String) (r : StageResult) :
    Ev.logFile a ∈ stageLogs a b r := by
  simp [stageLogs]

/-- Helper: the stderr log is written when stderr is nonempty. -/
theorem stderr_mem_stageLogs (a b : String) (r : StageResult) (h : r.stderr ≠ "") :
    Ev.logFile b ∈ stageLogs a b r := by
  simp [stageLogs, h]

/-- C1 (amended): the orchestrator is fail-fast for stages 1 and 2 —
a nonzero exit code or a missing/empty success marker writes the stage's
stdout log (and stderr log when stderr is nonempty), invokes no later stage,
never reaches the merge, saves state last, and exits 1 — and for stage 3 the
same holds for a nonzero exit code only (a zero exit without a marker is
treated as success). -/
theorem C1_pipeline_fail_fast_amended (inp : PipelineInput) :
    (stage1Fails inp →
      Ev.invoke 2 ∉ runPipeline inp ∧ Ev.invoke 3 ∉ runPipeline inp ∧
      Ev.mergeAttempt ∉ runPipeline inp ∧
      Ev.logFile "stage1_stdout.log" ∈ runPipeline inp ∧
      (inp.stage1.stderr ≠ "" → Ev.logFile "stage1_stderr.log" ∈ runPipeline inp) ∧
      ∃ pre, runPipeline inp = pre ++ [Ev.save, Ev.exit 1]) ∧
    (¬stage1Fails inp → stage2Fails inp →
      Ev.invoke 3 ∉ runPipeline inp ∧ Ev.mergeAttempt ∉ runPipeline inp ∧
      Ev.logFile "stage2_stdout.log" ∈ runPipeline inp ∧
      (inp.stage2.stderr ≠ "" → Ev.logFile "stage2_stderr.log" ∈ runPipeline inp) ∧
      ∃ pre, runPipeline inp = pre ++ [Ev.save, Ev.exit 1]) ∧
    (¬stage1Fails inp → ¬stage2Fails inp → inp.skipIssues = false →
      inp.stage3.returncode ≠ 0 →
      Ev.mergeAttempt ∉ runPipeline inp ∧
      Ev.logFile "stage3_stdout.log" ∈ runPipeline inp ∧
      (inp.stage3.stderr ≠ "" → Ev.logFile "stage3_stderr.log" ∈ runPipeline inp) ∧
      ∃ pre, runPipeline inp = pre ++ [Ev.save, Ev.exit 1]) := by
  refine ⟨?_, ?_, ?_⟩
  · intro h
    have T : runPipeline inp = [Ev.save, Ev.invoke 1] ++
        stageLogs "stage1_stdout.log" "stage1_stderr.log" inp.stage1 ++
        [Ev.save, Ev.exit 1] := by
      rcases h with h | h
      · simp [runPipeline, stage1Events, h]
      · by_cases hrc : inp.stage1.returncode ≠ 0
        · simp [runPipeline, stage1Events, hrc]
        · simp [runPipeline, stage1Events, hrc, h]
    rw [T]
    refine ⟨by simp, by simp, by simp, by simp, ?_, ?_⟩
    · intro hne
      simp [stderr_mem_stageLogs _ _ _ hne]
    · exact ⟨[Ev.save, Ev.invoke 1] ++
        stageLogs "stage1_stdout.log" "stage1_stderr.log" inp.stage1, by simp⟩
  · intro hn1 h
    rw [stage1Fails] at hn1
    push_neg at hn1
    obtain ⟨hrc1, hpf1⟩ := hn1
    have hpf1b : pyFalsy (parse_success_path inp.stage1.stdout "PRD generated") = false :=
      Bool.not_eq_true _ ▸ (Bool.eq_false_iff.mpr hpf1)
    have T : runPipeline inp = [Ev.save, Ev.invoke 1] ++
        stageLogs "stage1_stdout.log" "stage1_stderr.log" inp.stage1 ++
        ([Ev.save, Ev.invoke 2] ++
          stageLogs "stage2_stdout.log" "stage2_stderr.log" inp.stage2 ++
          [Ev.save, Ev.exit 1]) := by
      rcases h with h | h
      · simp [runPipeline, stage1Events, stage2Events, hrc1, hpf1b, h]
      · by_cases hrc : inp.stage2.returncode ≠ 0
        · simp [runPipeline, stage1Events, stage2Events, hrc1, hpf1b, hrc]
        · simp [runPipeline, stage1Events, stage2Events, hrc1, hpf1b, hrc, h]
    rw [T]
    refine ⟨by simp, by simp, by simp, ?_, ?_⟩
    · intro hne
      simp [stderr_mem_stageLogs _ _ _ hne]
    · exact ⟨[Ev.save, Ev.invoke 1] ++
        stageLogs "stage1_stdout.log" "stage1_stderr.log" inp.stage1 ++
        ([Ev.save, Ev.invoke 2] ++
          stageLogs "stage2_stdout.log" "stage2_stderr.log" inp.stage2), by simp⟩
  · intro hn1 hn2 hskip hrc3
    rw [stage1Fails] at hn1
    push_neg at hn1
    obtain ⟨hrc1, hpf1⟩ := hn1
    have hpf1b : pyFalsy (parse_success_path inp.stage1.stdout "PRD generated") = false :=
      Bool.not_eq_true _ ▸ (Bool.eq_false_iff.mpr hpf1)
    rw [stage2Fails] at hn2
    push_neg at hn2
    obtain ⟨hrc2, hpf2⟩ := hn2
    have hpf2b :
        pyFalsy (parse_success_path inp.stage2.stdout "Prompts document generated") = false :=
      Bool.not_eq_true _ ▸ (Bool.eq_false_iff.mpr hpf2)
    have T : runPipeline inp = [Ev.save, Ev.invoke 1] ++
        stageLogs "stage1_stdout.log" "stage1_stderr.log" inp.stage1 ++
        ([Ev.save, Ev.invoke 2] ++
          stageLogs "stage2_stdout.log" "stage2_stderr.log" inp.stage2 ++
          ([Ev.save, Ev.invoke 3] ++
            stageLogs "stage3_stdout.log" "stage3_stderr.log" inp.stage3 ++
            [Ev.save, Ev.exit 1])) := by
      simp [runPipeline, stage1Events, stage2Events, stage3Events, hrc1, hpf1b, hrc2,
        hpf2b, hskip, hrc3]
    rw [T]
    refine ⟨by simp, by simp, ?_, ?_⟩
    · intro hne
      simp [stderr_mem_stageLogs _ _ _ hne]
    · exact ⟨[Ev.save, Ev.invoke 1] ++
        stageLogs "stage1_stdout.log" "stage1_stderr.log" inp.stage1 ++
        ([Ev.save, Ev.invoke 2] ++
          stageLogs "stage2_stdout.log" "stage2_stderr.log" inp.stage2 ++
          ([Ev.save, Ev.invoke 3] ++
            stageLogs "stage3_stdout.log" "stage3_stderr.log" inp.stage3)), by simp⟩

/-- C1 witness: stage 1 succeeds with its marker, stage 2 exits nonzero —
stage 3 is never invoked, the merge is never attempted, state is saved and the
process exits 1. -/
theorem C1_pipeline_fail_fast_amended_witness :
    Ev.invoke 3 ∉ runPipeline pipeStage2Fail ∧
    Ev.mergeAttempt ∉ runPipeline pipeStage2Fail ∧
    Ev.logFile "stage2_stdout.log" ∈ runPipeline pipeStage2Fail ∧
    (pipeStage2Fail.stage2.stderr ≠ "" →
      Ev.logFile "stage2_stderr.log" ∈ runPipeline pipeStage2Fail) ∧
    ∃ pre, runPipeline pipeStage2Fail = pre ++ [Ev.save, Ev.exit 1] :=
  (C1_pipeline_fail_fast_amended pipeStage2Fail).2.1 (by decide) (by decide)

/-- C1 counterexample: with stages 1 and 2 succeeding and stage 3 exiting zero
while emitting no `SUCCESS: ... at ...` line at all (its stdout never contains
`SUCCESS`), the claim's failure condition holds for stage 3, yet the
orchestrator treats the stage as successful and the process exits 0, not
nonzero. -/
theorem C1_counterexample :
    pyIn "SUCCESS" pipeNoMarker3.stage3.stdout = false ∧
    pipeNoMarker3.stage3.returncode = 0 ∧
    (runPipeline pipeNoMarker3).getLast? = some (Ev.exit 0) ∧
    Ev.exit 1 ∉ runPipeline pipeNoMarker3 := by
  refine ⟨by decide, by decide, by decide, by decide⟩

/-- C9: when every required stage succeeds (stage 3 exits zero or is skipped)
and the final merge to main fails, the orchestrator still attempts the merge,
reports the failure in its summary as `FAILED (<error>)`, and terminates with
exit code 0 — the merge failure never produces a nonzero exit. -/
theorem C9_merge_failure_nonfatal (inp : PipelineInput) :
    ¬stage1Fails inp → ¬stage2Fails inp →
    (inp.skipIssues = true ∨ inp.stage3.returncode = 0) →
    inp.mergeSuccess = false →
    Ev.mergeAttempt ∈ runPipeline inp ∧
    Ev.summary ("FAILED (" ++ inp.mergeError ++ ")") ∈ runPipeline inp ∧
    Ev.exit 0 ∈ runPipeline inp ∧
    Ev.exit 1 ∉ runPipeline inp := by
  intro hn1 hn2 h3 hm
  rw [stage1Fails] at hn1
  push_neg at hn1
  obtain ⟨hrc1, hpf1⟩ := hn1
  have hpf1b : pyFalsy (parse_success_path inp.stage1.stdout "PRD generated") = false :=
    Bool.not_eq_true _ ▸ (Bool.eq_false_iff.mpr hpf1)
  rw [stage2Fails] at hn2
  push_neg at hn2
  obtain ⟨hrc2, hpf2⟩ := hn2
  have hpf2b :
      pyFalsy (parse_success_path inp.stage2.stdout "Prompts document generated") = false :=
    Bool.not_eq_true _ ▸ (Bool.eq_false_iff.mpr hpf2)
  rcases h3 with hskip | hrc3
  · have T : runPipeline inp = [Ev.save, Ev.invoke 1] ++
        stageLogs "stage1_stdout.log" "stage1_stderr.log" inp.stage1 ++
        ([Ev.save, Ev.invoke 2] ++
          stageLogs "stage2_stdout.log" "stage2_stderr.log" inp.stage2 ++
          [Ev.save, Ev.mergeAttempt, Ev.summary ("FAILED (" ++ inp.mergeError ++ ")"),
            Ev.exit 0]) := by
      simp [runPipeline, stage1Events, stage2Events, stage3Events, pipelineTail,
        mergeStatusStr, hrc1, hpf1b, hrc2, hpf2b, hskip, hm]
    rw [T]
    refine ⟨by simp, by simp, by simp, by simp⟩
  · by_cases hskip : inp.skipIssues = true
    · have T : runPipeline inp = [Ev.save, Ev.invoke 1] ++
          stageLogs "stage1_stdout.log" "stage1_stderr.log" inp.stage1 ++
          ([Ev.save, Ev.invoke 2] ++
            stageLogs "stage2_stdout.log" "stage2_stderr.log" inp.stage2 ++
            [Ev.save, Ev.mergeAttempt, Ev.summary ("FAILED (" ++ inp.mergeError ++ ")"),
              Ev.exit 0]) := by
        simp [runPipeline, stage1Events, stage2Events, stage3Events, pipelineTail,
          mergeStatusStr, hrc1, hpf1b, hrc2, hpf2b, hskip, hm]
      rw [T]
      refine ⟨by simp, by simp, by simp, by simp⟩
    · have hskipf : inp.skipIssues = false := by
        cases hv : inp.skipIssues
        · rfl
        · exact absurd hv hskip
      have T : runPipeline inp = [Ev.save, Ev.invoke 1] ++
          stageLogs "stage1_stdout.log" "stage1_stderr.log" inp.stage1 ++
          ([Ev.save, Ev.invoke 2] ++
            stageLogs "stage2_stdout.log" "stage2_stderr.log" inp.stage2 ++
            ([Ev.save, Ev.invoke 3] ++
              stageLogs "stage3_stdout.log" "stage3_stderr.log" inp.stage3 ++
              [Ev.save, Ev.mergeAttempt, Ev.summary ("FAILED (" ++ inp.mergeError ++ ")"),
                Ev.exit 0])) := by
        simp [runPipeline, stage1Events, stage2Events, stage3Events, pipelineTail,
          mergeStatusStr, hrc1, hpf1b, hrc2, hpf2b, hskipf, hrc3, hm]
      rw [T]
      refine ⟨by simp, by simp, by simp, by simp⟩

/-- C9 witness: the concrete all-stages-succeed, merge-fails run reports
`FAILED (merge conflict)` and exits 0. -/
theorem C9_merge_failure_nonfatal_witness :
    Ev.mergeAttempt ∈ runPipeline pipeMergeFail ∧
    Ev.summary ("FAILED (" ++ pipeMergeFail.mergeError ++ ")") ∈ runPipeline pipeMergeFail ∧
    Ev.exit 0 ∈ runPipeline pipeMergeFail ∧
    Ev.exit 1 ∉ runPipeline pipeMergeFail :=
  C9_merge_failure_nonfatal pipeMergeFail (by decide) (by decide) (Or.inl rfl) rfl

end ADW
